import Mathlib

/-!
Verification development for the multi-RTSP stream viewer (`src/main.py`).

The Python program is shallowly embedded below.  Conventions:

* A decoded frame is modelled as a pixel lookup function `Nat → Nat → Nat`
  (row/column to pixel value; the three colour channels are abstracted into
  the value).  Python/numpy buffer copies (`frame.copy()`) have value
  semantics here, so a copy is the identity.
* The external libraries (`cv2.VideoCapture`, `vlc.MediaPlayer`,
  `cv2.resize` / `putText` / `rectangle`) are modelled by their effect on
  the program's own state.  `cv2.resize` together with the in-cell drawing
  of the label and the audio button is abstracted as a `decorate` parameter
  (index and source frame to decorated cell-sized frame); the composed
  image does not otherwise depend on it.  `vlc.MediaPlayer.play` signals
  failure through its return code (the program ignores it), modelled as a
  `playOk : Bool` parameter recorded in the player's `playing` field;
  `stop`/`release` return nothing.
* Threading: each `StreamThread` loop iteration is one `Event` applied to
  the worker's state; the environment (read success/failure, user clicks)
  chooses the events.
-/

/-- A decoded frame: pixel lookup by row and column. -/
abbrev Frame := Nat → Nat → Nat

/-- A rectangle in canvas coordinates: top-left and bottom-right corners.
Coordinates are integers because the control rectangle derived in
`on_mouse` can have negative coordinates (`btn_x1 = x2 - 60`). -/
abbrev Rect := (Int × Int) × (Int × Int)

/-- Handle returned by `cv2.VideoCapture(url)` in `_connect`
(the buffer-size property set on it is external behaviour). -/
structure Capture where
  url : String
deriving DecidableEq, Repr

/-- Handle returned by `vlc.MediaPlayer(url)`.  `playing` records whether
the `play()` call succeeded; `released` whether `release()` was called. -/
structure AudioPlayer where
  url : String
  playing : Bool
  released : Bool
deriving DecidableEq, Repr

/-- State of one `StreamThread` (fields as in `__init__`). -/
structure Worker where
  url : String
  name : String
  frame : Option Frame
  cap : Option Capture
  stopped : Bool
  audio_player : Option AudioPlayer
  audio_enabled : Bool

/-- `StreamThread.__init__(url, name)`. -/
def initWorker (url name : String) : Worker :=
  { url := url, name := name, frame := none, cap := none, stopped := false,
    audio_player := none, audio_enabled := false }

/-- `StreamThread._start_audio`: `self.audio_player = vlc.MediaPlayer(self.url);
self.audio_player.play()`.  `playOk` is the (ignored) result of `play()`. -/
def startAudioW (playOk : Bool) (w : Worker) : Worker :=
  { w with audio_player := some { url := w.url, playing := playOk, released := false } }

/-- `StreamThread._stop_audio`: if a player exists, stop and release it and
set the field to `None`; otherwise a no-op. -/
def stopAudioW (w : Worker) : Worker :=
  match w.audio_player with
  | none => w
  | some _ => { w with audio_player := none }

/-- `StreamThread.toggle_audio`: branch on `audio_enabled`, stop or start
the audio, then flip `audio_enabled`. -/
def toggleAudioW (playOk : Bool) (w : Worker) : Worker :=
  let w' := if w.audio_enabled then stopAudioW w else startAudioW playOk w
  { w' with audio_enabled := !w.audio_enabled }

/-- `StreamThread._connect`: `self.cap = cv2.VideoCapture(self.url)`. -/
def connectW (w : Worker) : Worker :=
  { w with cap := some { url := w.url } }

/-- `StreamThread._reconnect`: release the capture if present (the handle
object itself is replaced by the following `_connect`); stop and release
the audio player if present WITHOUT setting the field to `None`; connect;
then, if `audio_enabled`, `_start_audio` (with play result `playOk`). -/
def reconnectW (playOk : Bool) (w : Worker) : Worker :=
  let w1 := { w with audio_player :=
    w.audio_player.map (fun p => { p with playing := false, released := true }) }
  let w2 := connectW w1
  if w.audio_enabled then startAudioW playOk w2 else w2

/-- `StreamThread.stop`: set the stop flag, release the capture handle
(the field keeps referencing it), and `_stop_audio` (player field to `None`). -/
def stopW (w : Worker) : Worker :=
  { w with stopped := true, audio_player := none }

/-- `StreamThread.get_frame`: copy-out of the cached frame under the lock
(`self.frame.copy() if self.frame is not None else None`); copies have
value semantics in the embedding. -/
def getFrameW (w : Worker) : Option Frame :=
  w.frame

/-- One iteration of the worker's environment-driven behaviour:
a successful `cap.read()` (caches a copy of the frame), a failed read
(`time.sleep(1)` then `_reconnect`; the same path serves the
`cap is None or not cap.isOpened()` branch of `run`), a user-initiated
`toggle_audio`, or `stop()`. -/
inductive Event where
  | readSuccess (f : Frame)
  | readFail (playOk : Bool)
  | toggle (playOk : Bool)
  | stop

/-- Whether an event is a successful read. -/
def Event.isReadSuccess : Event → Bool
  | .readSuccess _ => true
  | _ => false

/-- Effect of one event on the worker state (from `StreamThread.run`,
`toggle_audio` and `stop`). -/
def stepEvent : Event → Worker → Worker
  | .readSuccess f, w => { w with frame := some f }
  | .readFail playOk, w => reconnectW playOk w
  | .toggle playOk, w => toggleAudioW playOk w
  | .stop, w => stopW w

/-- Apply a sequence of events in order. -/
def applyEvents (evs : List Event) (w : Worker) : Worker :=
  evs.foldl (fun w e => stepEvent e w) w

/-- Ceiling of the square root, as computed by `math.ceil(math.sqrt(n))`
in `main` (exact-real reading of the float computation, faithful for the
stream counts the program handles). -/
def ceilSqrt (n : Nat) : Nat :=
  if Nat.sqrt n * Nat.sqrt n = n then Nat.sqrt n else Nat.sqrt n + 1

/-- Ceiling division, as computed by `math.ceil(len(streams) / rows)` in
`main` (exact-real reading of the float division). -/
def ceilDiv (n r : Nat) : Nat :=
  (n + r - 1) / r

/-- The `(rows, cols)` grid dimensions computed in the render loop of
`main` from the total number of streams. -/
def layoutDims (numStreams : Nat) : Nat × Nat :=
  let rows := ceilSqrt numStreams
  (rows, ceilDiv numStreams rows)

/-- One render-loop layout decision of `main`: with the current list of
`get_frame()` results, if no frame is active the loop sleeps and skips
(`None` here), otherwise the grid dimensions are computed from
`len(streams)` (the length of the frame list, one entry per stream). -/
def renderLayout (frames : List (Option Frame)) : Option (Nat × Nat) :=
  if frames.all (fun f => f.isNone) then none
  else some (layoutDims frames.length)

/-- Tile rectangle of index `i` in `create_grid`:
`x = (i % cols) * cell_w`, `y = (i // cols) * cell_h`, stored as
`((x, y), (x + cell_w, y + cell_h))` (top-left and bottom-right). -/
def tileRect (cols cw ch i : Nat) : Rect :=
  let x : Int := ((i % cols) * cw : Nat)
  let y : Int := ((i / cols) * ch : Nat)
  ((x, y), (x + (cw : Int), y + (ch : Int)))

/-- The `positions` list built by the loop of `create_grid`: `None` for an
absent frame, else the tile rectangle.  `i` is the running loop index. -/
def positionsFrom (cols cw ch : Nat) : Nat → List (Option Frame) → List (Option Rect)
  | _, [] => []
  | i, f? :: rest =>
    (match f? with
     | none => none
     | some _ => some (tileRect cols cw ch i)) :: positionsFrom cols cw ch (i + 1) rest

/-- Membership of canvas pixel `(px, py)` in the tile of index `i`
(the region written by `grid[y:y+cell_h, x:x+cell_w] = resized`). -/
def inTileP (cols cw ch i px py : Nat) : Prop :=
  (i % cols) * cw ≤ px ∧ px < (i % cols) * cw + cw ∧
  (i / cols) * ch ≤ py ∧ py < (i / cols) * ch + ch

instance (cols cw ch i px py : Nat) : Decidable (inTileP cols cw ch i px py) := by
  unfold inTileP; infer_instance

/-- Value of canvas pixel `(px, py)` after the writes of `create_grid`'s
loop: the canvas starts at `np.zeros`, and each present frame `i` writes
its decorated, cell-sized image into its tile (later writes overwrite, as
numpy assignment does).  `i` is the running loop index, `acc` the pixel
value written so far. -/
def gridPixelAux (decorate : Nat → Frame → Frame) (cols cw ch px py : Nat) :
    List (Option Frame) → Nat → Nat → Nat
  | [], _, acc => acc
  | f? :: rest, i, acc =>
    let acc2 :=
      match f? with
      | none => acc
      | some f =>
        if inTileP cols cw ch i px py then
          decorate i f (px - (i % cols) * cw) (py - (i / cols) * ch)
        else acc
    gridPixelAux decorate cols cw ch px py rest (i + 1) acc2

/-- `create_grid(frames, (rows, cols), (w, h), ...)`: returns the composed
image (as a pixel lookup) and the `positions` list.  `cell_w = w // cols`,
`cell_h = h // rows`.  `decorate i` stands for the external
`cv2.resize` + `cv2.putText` (stream name) + `cv2.rectangle`/`putText`
(audio button for stream `i`) pipeline applied to frame `i`. -/
def createGrid (decorate : Nat → Frame → Frame) (frames : List (Option Frame))
    (rows cols w h : Nat) : (Nat → Nat → Nat) × List (Option Rect) :=
  let cw := w / cols
  let ch := h / rows
  (fun px py => gridPixelAux decorate cols cw ch px py frames 0 0,
   positionsFrom cols cw ch 0 frames)

/-- The audio-button rectangle `on_mouse` derives from a tile rectangle
`((x1, y1), (x2, y2))`: `btn_x1 = x2 - 60`, `btn_y1 = y1 + 10`,
`btn_x2 = btn_x1 + 50`, `btn_y2 = btn_y1 + 30`. -/
def ctrlRect (r : Rect) : Rect :=
  ((r.2.1 - 60, r.1.2 + 10), (r.2.1 - 60 + 50, r.1.2 + 10 + 30))

/-- The hit test of `on_mouse`:
`btn_x1 <= x <= btn_x2 and btn_y1 <= y <= btn_y2` (closed on all sides). -/
def inCtrlClosed (r : Rect) (p : Int × Int) : Prop :=
  (ctrlRect r).1.1 ≤ p.1 ∧ p.1 ≤ (ctrlRect r).2.1 ∧
  (ctrlRect r).1.2 ≤ p.2 ∧ p.2 ≤ (ctrlRect r).2.2

instance (r : Rect) (p : Int × Int) : Decidable (inCtrlClosed r p) := by
  unfold inCtrlClosed; infer_instance

/-- Strict interior of the control rectangle (the spec's "strictly
inside"). -/
def strictInCtrl (r : Rect) (p : Int × Int) : Prop :=
  (ctrlRect r).1.1 < p.1 ∧ p.1 < (ctrlRect r).2.1 ∧
  (ctrlRect r).1.2 < p.2 ∧ p.2 < (ctrlRect r).2.2

instance (r : Rect) (p : Int × Int) : Decidable (strictInCtrl r p) := by
  unfold strictInCtrl; infer_instance

/-- Rectangle `r1` lies inside rectangle `r2`. -/
def nestedIn (r1 r2 : Rect) : Prop :=
  r2.1.1 ≤ r1.1.1 ∧ r1.2.1 ≤ r2.2.1 ∧ r2.1.2 ≤ r1.1.2 ∧ r1.2.2 ≤ r2.2.2

instance (r1 r2 : Rect) : Decidable (nestedIn r1 r2) := by
  unfold nestedIn; infer_instance

/-- The left-click handler `on_mouse`: it walks `last_positions` with
`enumerate`, and for EVERY index whose region is present and whose derived
button rectangle contains the click it calls `streams[i].toggle_audio()`
(there is no `break`).  The walk is driven by the positions list; workers
beyond it are untouched.  `playOk` is the play result of any started
audio. -/
def dispatchClick (playOk : Bool) (p : Int × Int) :
    List (Option Rect) → List Worker → List Worker
  | [], ws => ws
  | _ :: _, [] => []
  | r? :: rs, wk :: ws =>
    (match r? with
     | none => wk
     | some r => if inCtrlClosed r p then toggleAudioW playOk wk else wk)
      :: dispatchClick playOk p rs ws

/-- The `on_mouse` walk leaves index `j` alone: its entry is missing,
absent, or its derived button rectangle does not contain the click. -/
def missesCtrl (p : Int × Int) (entry : Option (Option Rect)) : Prop :=
  match entry with
  | some (some r) => ¬ inCtrlClosed r p
  | _ => True

instance (p : Int × Int) (entry : Option (Option Rect)) : Decidable (missesCtrl p entry) := by
  unfold missesCtrl
  match entry with
  | some (some r) => exact inferInstanceAs (Decidable (¬ inCtrlClosed r p))
  | some none => exact inferInstanceAs (Decidable True)
  | none => exact inferInstanceAs (Decidable True)

/-- Geometry produced by `create_grid` for nine present frames on a
3×3 grid over a 120×120 canvas (`cell_w = cell_h = 40`). -/
def nineGrid : List (Option Rect) :=
  (createGrid (fun _ f => f) (List.replicate 9 (some (fun _ _ => 0))) 3 3 120 120).2

/-- Nine freshly constructed workers. -/
def nineWorkers : List Worker :=
  List.replicate 9 (initWorker "u" "c")

/-- Geometry produced by `create_grid` for a single present frame on a
1×1 grid over a 50×30 canvas. -/
def oneTile : List (Option Rect) :=
  (createGrid (fun _ f => f) [some (fun _ _ => 0)] 1 1 50 30).2

/-- Python's `str.strip()` on a line given as its character sequence:
drop leading and trailing whitespace. -/
def pyStrip (l : List Char) : List Char :=
  ((l.dropWhile Char.isWhitespace).reverse.dropWhile Char.isWhitespace).reverse

/-- `load_streams_from_file`: `None` stands for `FileNotFoundError`
(caught: an error is printed and the list is empty); otherwise the file's
lines, each stripped, keeping only the non-blank ones
(`[line.strip() for line in f if line.strip()]`). -/
def loadStreamsFromFile (content : Option (List (List Char))) : List (List Char) :=
  match content with
  | none => []
  | some lines => lines.filterMap (fun l => if pyStrip l ≠ [] then some (pyStrip l) else none)

/-- Outcome of `main`'s startup, up to the point workers are started:
either the early return after printing "No valid streams found." (no
worker constructed or started), or the list of constructed workers
(`StreamThread(url, name=f"Cam i+1")` in order). -/
inductive StartupResult where
  | noStreams
  | started (workers : List Worker)

/-- Startup portion of `main`: load the URL list; if it is empty, print
the message and return (a clean, non-error exit); otherwise construct one
worker per URL. -/
def mainStartup (content : Option (List (List Char))) : StartupResult :=
  let urls := loadStreamsFromFile content
  if urls = [] then .noStreams
  else .started ((urls.enum).map
    (fun iu => initWorker (String.mk iu.2) ("Cam " ++ toString (iu.1 + 1))))

theorem ceilSqrt_spec (n : Nat) (hn : 1 ≤ n) :
    (ceilSqrt n - 1) * (ceilSqrt n - 1) < n ∧ n ≤ ceilSqrt n * ceilSqrt n := by
  have h1 : Nat.sqrt n * Nat.sqrt n ≤ n := Nat.sqrt_le n
  have h2 : n < (Nat.sqrt n + 1) * (Nat.sqrt n + 1) := Nat.lt_succ_sqrt n
  have hs : 1 ≤ Nat.sqrt n := by
    rcases Nat.eq_zero_or_pos (Nat.sqrt n) with h | h
    · rw [h] at h2; omega
    · exact h
  unfold ceilSqrt
  rcases eq_or_ne (Nat.sqrt n * Nat.sqrt n) n with he | he
  · rw [if_pos he]
    constructor
    · have : (Nat.sqrt n - 1) * (Nat.sqrt n - 1) < Nat.sqrt n * Nat.sqrt n := by
        have := Nat.sub_lt hs Nat.one_pos
        exact Nat.mul_lt_mul_of_lt_of_le this (Nat.sub_le _ _) (by omega)
      omega
    · omega
  · rw [if_neg he]
    refine ⟨?_, by omega⟩
    have : Nat.sqrt n + 1 - 1 = Nat.sqrt n := by omega
    rw [this]
    omega

theorem ceilDiv_spec (n r : Nat) (hn : 1 ≤ n) (hr : 1 ≤ r) :
    (ceilDiv n r - 1) * r < n ∧ n ≤ ceilDiv n r * r := by
  unfold ceilDiv
  have hdm := Nat.div_add_mod (n + r - 1) r
  have hml : (n + r - 1) % r < r := Nat.mod_lt _ (by omega)
  have hq : 1 ≤ (n + r - 1) / r := by
    have : r ≤ n + r - 1 := by omega
    exact Nat.one_le_div_iff (by omega) |>.mpr this
  rw [Nat.sub_mul]
  constructor
  · have h1 : ((n + r - 1) / r) * r = r * ((n + r - 1) / r) := Nat.mul_comm _ _
    omega
  · have h1 : ((n + r - 1) / r) * r = r * ((n + r - 1) / r) := Nat.mul_comm _ _
    omega

theorem ceilSqrt_pos (n : Nat) (hn : 1 ≤ n) : 1 ≤ ceilSqrt n := by
  rcases Nat.eq_zero_or_pos (ceilSqrt n) with h | h
  · have := (ceilSqrt_spec n hn).2
    rw [h] at this
    omega
  · exact h

theorem toggleAudioW_enabled (playOk : Bool) (w : Worker) :
    (toggleAudioW playOk w).audio_enabled = !w.audio_enabled := by
  unfold toggleAudioW startAudioW stopAudioW
  cases hw : w.audio_enabled <;> cases hp : w.audio_player <;> simp [hw, hp]

theorem toggleAudioW_cap (playOk : Bool) (w : Worker) :
    (toggleAudioW playOk w).cap = w.cap := by
  unfold toggleAudioW startAudioW stopAudioW
  cases hw : w.audio_enabled <;> cases hp : w.audio_player <;> simp [hw, hp]

theorem toggleAudioW_frame (playOk : Bool) (w : Worker) :
    (toggleAudioW playOk w).frame = w.frame := by
  unfold toggleAudioW startAudioW stopAudioW
  cases hw : w.audio_enabled <;> cases hp : w.audio_player <;> simp [hw, hp]

theorem toggleAudioW_inv (playOk : Bool) (w : Worker)
    (h : w.audio_enabled = w.audio_player.isSome) :
    (toggleAudioW playOk w).audio_enabled = (toggleAudioW playOk w).audio_player.isSome := by
  unfold toggleAudioW startAudioW stopAudioW
  cases hw : w.audio_enabled <;> cases hp : w.audio_player <;>
    simp [hw, hp] at h ⊢

theorem foldToggle_inv (oks : List Bool) :
    ∀ w : Worker, w.audio_enabled = w.audio_player.isSome →
      (oks.foldl (fun w ok => toggleAudioW ok w) w).audio_enabled =
        (oks.foldl (fun w ok => toggleAudioW ok w) w).audio_player.isSome := by
  induction oks with
  | nil => intro w h; exact h
  | cons ok rest ih =>
    intro w h
    exact ih (toggleAudioW ok w) (toggleAudioW_inv ok w h)

theorem foldToggle_enabled (oks : List Bool) :
    ∀ w : Worker, (oks.foldl (fun w ok => toggleAudioW ok w) w).audio_enabled =
      xor (decide (oks.length % 2 = 1)) w.audio_enabled := by
  induction oks with
  | nil => intro w; simp
  | cons ok rest ih =>
    intro w
    have hpar : decide ((rest.length + 1) % 2 = 1) = !decide (rest.length % 2 = 1) := by
      rcases Nat.mod_two_eq_zero_or_one rest.length with h | h <;>
        simp [Nat.add_mod, h]
    simp only [List.foldl_cons, ih (toggleAudioW ok w), toggleAudioW_enabled,
      List.length_cons, hpar]
    cases decide (rest.length % 2 = 1) <;> cases w.audio_enabled <;> rfl

/-- Claim C1 (counterexample): with streams `[active, inactive, active]`
the number of active frames is 2, but the render loop computes the layout
from the total stream count 3, giving `(rows, cols) = (2, 2)`, while the
claim's formula at N = 2 active frames gives `(2, 1)`. -/
theorem renderLayout_active_frames_cex :
    ((([some (fun _ _ => 0), none, some (fun _ _ => 0)] : List (Option Frame)).filter
        (fun f => f.isSome)).length = 2) ∧
    renderLayout [some (fun _ _ => 0), none, some (fun _ _ => 0)] = some (2, 2) ∧
    layoutDims 2 = (2, 1) ∧ ((2, 2) : Nat × Nat) ≠ (2, 1) := by
  have hs3 : Nat.sqrt 3 = 1 := by
    have h1 := Nat.le_sqrt.mpr (by omega : 1 * 1 ≤ 3)
    have h2 := Nat.sqrt_lt.mpr (by omega : 3 < 2 * 2)
    omega
  have hs2 : Nat.sqrt 2 = 1 := by
    have h1 := Nat.le_sqrt.mpr (by omega : 1 * 1 ≤ 2)
    have h2 := Nat.sqrt_lt.mpr (by omega : 2 < 2 * 2)
    omega
  refine ⟨by decide, ?_, ?_, by decide⟩
  · simp [renderLayout, layoutDims, ceilSqrt, ceilDiv, hs3]
  · simp [layoutDims, ceilSqrt, ceilDiv, hs2]

/-- Claim C1 (amended): whenever at least one frame is active, the render
loop lays out the grid from N = the total number of streams (the length of
the frame list): `rows = ceil(sqrt(N))` (characterised by
`(rows-1)^2 < N <= rows^2`), `cols = ceil(N / rows)` (characterised by
`(cols-1)*rows < N <= cols*rows`), and `rows * cols >= N`. -/
theorem renderLayout_dims (frames : List (Option Frame))
    (hact : ∃ f ∈ frames, f.isSome = true) :
    renderLayout frames = some (layoutDims frames.length) ∧
    ((layoutDims frames.length).1 - 1) * ((layoutDims frames.length).1 - 1) <
        frames.length ∧
    frames.length ≤ (layoutDims frames.length).1 * (layoutDims frames.length).1 ∧
    ((layoutDims frames.length).2 - 1) * (layoutDims frames.length).1 < frames.length ∧
    frames.length ≤ (layoutDims frames.length).2 * (layoutDims frames.length).1 ∧
    frames.length ≤ (layoutDims frames.length).1 * (layoutDims frames.length).2 := by
  obtain ⟨f, hf, hs⟩ := hact
  have hn : 1 ≤ frames.length := List.length_pos_of_mem hf
  obtain ⟨v, rfl⟩ := Option.isSome_iff_exists.mp hs
  have hall : frames.all (fun f => f.isNone) = false :=
    List.all_eq_false.mpr ⟨some v, hf, by simp⟩
  have hrl : renderLayout frames = some (layoutDims frames.length) := by
    unfold renderLayout
    rw [hall]
    simp
  have hrows := ceilSqrt_spec frames.length hn
  have hr1 : 1 ≤ ceilSqrt frames.length := ceilSqrt_pos frames.length hn
  have hcols := ceilDiv_spec frames.length (ceilSqrt frames.length) hn hr1
  refine ⟨hrl, ?_, ?_, ?_, ?_, ?_⟩
  · simpa only [layoutDims] using hrows.1
  · simpa only [layoutDims] using hrows.2
  · simpa only [layoutDims] using hcols.1
  · simpa only [layoutDims] using hcols.2
  · simp only [layoutDims]
    rw [Nat.mul_comm]
    exact hcols.2

/-- Witness for `renderLayout_dims`: a single stream with an active frame. -/
theorem renderLayout_dims_witness :
    (∃ f ∈ ([some (fun _ _ => 0)] : List (Option Frame)), f.isSome = true) ∧
    renderLayout [some (fun _ _ => 0)] =
      some (layoutDims ([some (fun _ _ => 0)] : List (Option Frame)).length) :=
  ⟨⟨some (fun _ _ => 0), List.Mem.head _, rfl⟩,
   (renderLayout_dims [some (fun _ _ => 0)] ⟨some (fun _ _ => 0), List.Mem.head _, rfl⟩).1⟩

/-- Claim C8: `toggle_audio` always flips the Audio State and leaves the
connection handle and the frame cache untouched; in particular when the
audio start fails (`playOk = false`; `vlc` reports play failure through a
return code the program ignores) the failure is isolated, and the stop
path (`stop`/`release`) has no failure signal at all. -/
theorem toggleAudio_isolated (w : Worker) (playOk : Bool) :
    (toggleAudioW playOk w).audio_enabled = !w.audio_enabled ∧
    (toggleAudioW playOk w).cap = w.cap ∧
    (toggleAudioW playOk w).frame = w.frame :=
  ⟨toggleAudioW_enabled playOk w, toggleAudioW_cap playOk w, toggleAudioW_frame playOk w⟩

/-- Claim C9: a missing stream file, or one whose lines are all blank,
yields an empty URL list, and `main` then prints the "no streams" message
and returns cleanly without constructing or starting any worker
(`StartupResult.noStreams` carries no workers). -/
theorem mainStartup_noStreams (lines : List (List Char))
    (hblank : ∀ l ∈ lines, pyStrip l = []) :
    mainStartup none = StartupResult.noStreams ∧
    mainStartup (some lines) = StartupResult.noStreams := by
  constructor
  · rfl
  · have hempty : loadStreamsFromFile (some lines) = [] := by
      unfold loadStreamsFromFile
      refine List.filterMap_eq_nil_iff.mpr ?_
      intro l hl
      rw [hblank l hl]
      simp
    simp [mainStartup, hempty]

/-- Witness for `mainStartup_noStreams`: a file of one empty and one
whitespace-only line. -/
theorem mainStartup_noStreams_witness :
    (∀ l ∈ [([] : List Char), [' ', ' ']], pyStrip l = []) ∧
    (mainStartup none = StartupResult.noStreams ∧
     mainStartup (some [[], [' ', ' ']]) = StartupResult.noStreams) :=
  ⟨by decide, mainStartup_noStreams [[], [' ', ' ']] (by decide)⟩

/-- Claim C10: starting from a freshly constructed worker (Audio State
Off, no playback handle), after any finite sequence of `toggle_audio`
calls (each tagged with the play result of its possible audio start) the
Audio State equals the presence of a playback handle, and it is On exactly
when the number of calls so far is odd. -/
theorem toggleSequence_parity (url name : String) (oks : List Bool) :
    ((oks.foldl (fun w ok => toggleAudioW ok w) (initWorker url name)).audio_enabled =
      (oks.foldl (fun w ok => toggleAudioW ok w) (initWorker url name)).audio_player.isSome) ∧
    ((oks.foldl (fun w ok => toggleAudioW ok w) (initWorker url name)).audio_enabled =
      decide (oks.length % 2 = 1)) := by
  constructor
  · exact foldToggle_inv oks (initWorker url name) rfl
  · rw [foldToggle_enabled oks (initWorker url name)]
    simp [initWorker]

theorem reconnectW_frame (playOk : Bool) (w : Worker) :
    (reconnectW playOk w).frame = w.frame := by
  unfold reconnectW connectW startAudioW
  cases hw : w.audio_enabled <;> simp [hw]

theorem stepEvent_frame (e : Event) (w : Worker) (h : e.isReadSuccess = false) :
    (stepEvent e w).frame = w.frame := by
  cases e with
  | readSuccess f => simp [Event.isReadSuccess] at h
  | readFail playOk => exact reconnectW_frame playOk w
  | toggle playOk => exact toggleAudioW_frame playOk w
  | stop => rfl

theorem applyEvents_frame : ∀ (evs : List Event) (w : Worker),
    (∀ e ∈ evs, e.isReadSuccess = false) →
    (applyEvents evs w).frame = w.frame := by
  intro evs
  induction evs with
  | nil => intro w _; rfl
  | cons e rest ih =>
    intro w h
    have he : e.isReadSuccess = false := h e (List.Mem.head _)
    have hr : ∀ e' ∈ rest, e'.isReadSuccess = false :=
      fun e' he' => h e' (List.Mem.tail _ he')
    calc (applyEvents (e :: rest) w).frame
        = (applyEvents rest (stepEvent e w)).frame := rfl
      _ = (stepEvent e w).frame := ih (stepEvent e w) hr
      _ = w.frame := stepEvent_frame e w he

theorem stepEvent_frame_ne_none (e : Event) (w : Worker) (h : w.frame ≠ none) :
    (stepEvent e w).frame ≠ none := by
  cases e with
  | readSuccess f => simp [stepEvent]
  | readFail playOk => rw [show stepEvent (.readFail playOk) w = reconnectW playOk w from rfl,
      reconnectW_frame]; exact h
  | toggle playOk => rw [show stepEvent (.toggle playOk) w = toggleAudioW playOk w from rfl,
      toggleAudioW_frame]; exact h
  | stop => exact h

theorem applyEvents_frame_ne_none : ∀ (evs : List Event) (w : Worker),
    w.frame ≠ none → (applyEvents evs w).frame ≠ none := by
  intro evs
  induction evs with
  | nil => intro w h; exact h
  | cons e rest ih =>
    intro w h
    exact ih (stepEvent e w) (stepEvent_frame_ne_none e w h)

theorem applyEvents_frame_populated : ∀ (evs : List Event) (w : Worker),
    (∃ f, Event.readSuccess f ∈ evs) → (applyEvents evs w).frame ≠ none := by
  intro evs
  induction evs with
  | nil =>
    intro w h
    obtain ⟨f, hf⟩ := h
    simp at hf
  | cons e rest ih =>
    intro w h
    obtain ⟨f, hf⟩ := h
    rcases List.mem_cons.mp hf with he | ht
    · subst he
      have hstep : (stepEvent (Event.readSuccess f) w).frame = some f := rfl
      have : (stepEvent (Event.readSuccess f) w).frame ≠ none := by
        rw [hstep]; simp
      exact applyEvents_frame_ne_none rest _ this
    · exact ih (stepEvent e w) ⟨f, ht⟩

theorem reconnectW_audio (w : Worker) (playOk : Bool)
    (hOff : w.audio_enabled = false → w.audio_player = none) :
    ((reconnectW playOk w).audio_enabled = w.audio_enabled) ∧
    (w.audio_enabled = true →
      ∃ p, (reconnectW playOk w).audio_player = some p ∧ p.released = false) ∧
    (w.audio_enabled = false → (reconnectW playOk w).audio_player = none) := by
  unfold reconnectW connectW startAudioW
  cases hw : w.audio_enabled
  · simp [hw, hOff hw]
  · simp [hw]

theorem stepEvent_audioOff (e : Event) (w : Worker)
    (h : w.audio_enabled = false → w.audio_player = none) :
    (stepEvent e w).audio_enabled = false → (stepEvent e w).audio_player = none := by
  cases e with
  | readSuccess f => exact h
  | readFail playOk =>
    simp only [stepEvent]
    unfold reconnectW connectW startAudioW
    cases hw : w.audio_enabled
    · simp [hw, h hw]
    · simp [hw]
  | toggle playOk =>
    simp only [stepEvent]
    unfold toggleAudioW stopAudioW startAudioW
    cases hw : w.audio_enabled <;> cases hp : w.audio_player <;> simp [hw, hp]
  | stop => intro _; rfl

theorem applyEvents_audioOff : ∀ (evs : List Event) (w : Worker),
    (w.audio_enabled = false → w.audio_player = none) →
    ((applyEvents evs w).audio_enabled = false →
      (applyEvents evs w).audio_player = none) := by
  intro evs
  induction evs with
  | nil => intro w h; exact h
  | cons e rest ih =>
    intro w h
    exact ih (stepEvent e w) (stepEvent_audioOff e w h)

/-- Claim C3: for every worker state reachable from construction by any
event history, `_reconnect` (the `Streaming → Disconnected → Streaming`
transition) preserves the Audio State; if it was On before the disconnect
then afterwards an active (non-absent, unreleased) playback handle
exists; if it was Off — in which case no handle existed, an invariant of
every reachable state — then no handle exists afterwards. -/
theorem reconnect_audio_restore (url name : String) (evs : List Event) (playOk : Bool) :
    ((reconnectW playOk (applyEvents evs (initWorker url name))).audio_enabled =
      (applyEvents evs (initWorker url name)).audio_enabled) ∧
    ((applyEvents evs (initWorker url name)).audio_enabled = true →
      ∃ p, (reconnectW playOk (applyEvents evs (initWorker url name))).audio_player =
        some p ∧ p.released = false) ∧
    ((applyEvents evs (initWorker url name)).audio_enabled = false →
      (reconnectW playOk (applyEvents evs (initWorker url name))).audio_player = none) :=
  reconnectW_audio (applyEvents evs (initWorker url name)) playOk
    (applyEvents_audioOff evs (initWorker url name) (fun _ => rfl))

/-- Claim C6: `get_frame` returns the cached frame (a copy, with value
semantics) and is `none` on a never-populated cache; any two calls with no
intervening successful read — arbitrary reconnects, audio toggles and even
`stop()` in between — return bit-identical results. -/
theorem getFrame_idempotent (w : Worker) (url name : String) (evs : List Event)
    (h : ∀ e ∈ evs, e.isReadSuccess = false) :
    getFrameW (applyEvents evs w) = getFrameW w ∧
    getFrameW (initWorker url name) = none :=
  ⟨applyEvents_frame evs w h, rfl⟩

/-- Witness for `getFrame_idempotent`: a reconnect, an audio toggle and a
stop between the two calls. -/
theorem getFrame_idempotent_witness :
    (∀ e ∈ [Event.toggle true, Event.readFail false, Event.stop],
      e.isReadSuccess = false) ∧
    (getFrameW (applyEvents [Event.toggle true, Event.readFail false, Event.stop]
        (initWorker "u" "c")) = getFrameW (initWorker "u" "c") ∧
     getFrameW (initWorker "u" "c") = none) :=
  ⟨by decide,
   getFrame_idempotent (initWorker "u" "c") "u" "c"
     [Event.toggle true, Event.readFail false, Event.stop] (by decide)⟩

/-- Claim C7: a read failure (and the reconnect it triggers) leaves the
frame cache at its last value, and once a successful read has populated
the cache it can never become absent again — the cache is absent only if
it was never populated. -/
theorem frameCache_stable (w : Worker) (playOk : Bool) (url name : String)
    (evs : List Event) (hpop : ∃ f, Event.readSuccess f ∈ evs) :
    ((reconnectW playOk w).frame = w.frame) ∧
    ((stepEvent (Event.readFail playOk) w).frame = w.frame) ∧
    ((applyEvents evs (initWorker url name)).frame ≠ none) :=
  ⟨reconnectW_frame playOk w, reconnectW_frame playOk w,
   applyEvents_frame_populated evs (initWorker url name) hpop⟩

/-- Witness for `frameCache_stable`: one successful read followed by a
read failure. -/
theorem frameCache_stable_witness :
    (∃ f, Event.readSuccess f ∈
      [Event.readSuccess (fun _ _ => 0), Event.readFail true]) ∧
    (((reconnectW true (initWorker "u" "c")).frame = (initWorker "u" "c").frame) ∧
     ((stepEvent (Event.readFail true) (initWorker "u" "c")).frame =
        (initWorker "u" "c").frame) ∧
     ((applyEvents [Event.readSuccess (fun _ _ => 0), Event.readFail true]
        (initWorker "u" "c")).frame ≠ none)) :=
  ⟨⟨fun _ _ => 0, List.Mem.head _⟩,
   frameCache_stable (initWorker "u" "c") true "u" "c"
     [Event.readSuccess (fun _ _ => 0), Event.readFail true]
     ⟨fun _ _ => 0, List.Mem.head _⟩⟩

theorem dispatchClick_hit (playOk : Bool) (p : Int × Int) :
    ∀ (rs : List (Option Rect)) (ws : List Worker) (i : Nat) (r : Rect) (wk : Worker),
    rs[i]? = some (some r) → inCtrlClosed r p → ws[i]? = some wk →
    (dispatchClick playOk p rs ws)[i]? = some (toggleAudioW playOk wk) := by
  intro rs
  induction rs with
  | nil => intro ws i r wk h _ _; simp at h
  | cons r? rest ih =>
    intro ws i r wk hpos hin hwk
    cases ws with
    | nil => simp at hwk
    | cons wk0 wrest =>
      cases i with
      | zero =>
        simp only [List.getElem?_cons_zero, Option.some_inj] at hpos hwk
        subst hpos
        subst hwk
        simp [dispatchClick, hin]
      | succ n =>
        simp only [List.getElem?_cons_succ] at hpos hwk
        simp only [dispatchClick, List.getElem?_cons_succ]
        exact ih wrest n r wk hpos hin hwk

theorem dispatchClick_miss (playOk : Bool) (p : Int × Int) :
    ∀ (rs : List (Option Rect)) (ws : List Worker) (j : Nat),
    missesCtrl p rs[j]? →
    (dispatchClick playOk p rs ws)[j]? = ws[j]? := by
  intro rs
  induction rs with
  | nil => intro ws j _; rfl
  | cons r? rest ih =>
    intro ws j hmiss
    cases ws with
    | nil => simp [dispatchClick]
    | cons wk0 wrest =>
      cases j with
      | zero =>
        rw [List.getElem?_cons_zero] at hmiss
        cases r? with
        | none => simp [dispatchClick]
        | some r =>
          have hnc : ¬ inCtrlClosed r p := hmiss
          simp [dispatchClick, hnc]
      | succ n =>
        rw [List.getElem?_cons_succ] at hmiss
        simp only [dispatchClick, List.getElem?_cons_succ]
        exact ih wrest n hmiss

/-- Claim C2 (amended): a click strictly inside the control rectangle of
tile `i` toggles stream `i` (its Audio State flips), and every stream
whose geometry entry misses the click — entry absent, or control
rectangle not containing the point, which covers a point inside a tile
but outside its control rectangle and a point outside every control
rectangle — keeps its Audio State.  (The unamended "and no OTHER
stream's Audio State changes" holds only when no other control rectangle
contains the point: `on_mouse` has no `break` and toggles every hit
index, and control rectangles of adjacent tiles overlap when cells are at
most 50 px wide.) -/
theorem hitTest_flip (playOk : Bool) (p : Int × Int)
    (positions : List (Option Rect)) (workers : List Worker)
    (i j : Nat) (r : Rect) (wk : Worker)
    (hpos : positions[i]? = some (some r)) (hstrict : strictInCtrl r p)
    (hwk : workers[i]? = some wk) (hj : missesCtrl p positions[j]?) :
    ((dispatchClick playOk p positions workers)[i]? =
      some (toggleAudioW playOk wk)) ∧
    ((toggleAudioW playOk wk).audio_enabled = !wk.audio_enabled) ∧
    ((dispatchClick playOk p positions workers)[j]? = workers[j]?) := by
  obtain ⟨h1, h2, h3, h4⟩ := hstrict
  have hin : inCtrlClosed r p :=
    ⟨le_of_lt h1, le_of_lt h2, le_of_lt h3, le_of_lt h4⟩
  exact ⟨dispatchClick_hit playOk p positions workers i r wk hpos hin hwk,
    toggleAudioW_enabled playOk wk,
    dispatchClick_miss playOk p positions workers j hj⟩

/-- Witness for `hitTest_flip`: two streams side by side on the default
1920×1080 canvas (row of two tiles, `cell_w = 960`), stream 0 present and
stream 1 absent; the click (925, 25) is strictly inside tile 0's control
rectangle. -/
theorem hitTest_flip_witness :
    ((createGrid (fun _ f => f) [some (fun _ _ => 0), none] 1 2 1920 1080).2[0]? =
      some (some ((0, 0), (960, 1080)))) ∧
    strictInCtrl ((0, 0), (960, 1080)) (925, 25) ∧
    ([initWorker "u" "a", initWorker "v" "b"][0]? = some (initWorker "u" "a")) ∧
    missesCtrl (925, 25)
      (createGrid (fun _ f => f) [some (fun _ _ => 0), none] 1 2 1920 1080).2[1]? ∧
    (((dispatchClick true (925, 25)
        (createGrid (fun _ f => f) [some (fun _ _ => 0), none] 1 2 1920 1080).2
        [initWorker "u" "a", initWorker "v" "b"])[0]? =
      some (toggleAudioW true (initWorker "u" "a"))) ∧
     ((toggleAudioW true (initWorker "u" "a")).audio_enabled =
        !(initWorker "u" "a").audio_enabled) ∧
     ((dispatchClick true (925, 25)
        (createGrid (fun _ f => f) [some (fun _ _ => 0), none] 1 2 1920 1080).2
        [initWorker "u" "a", initWorker "v" "b"])[1]? =
      [initWorker "u" "a", initWorker "v" "b"][1]?)) :=
  ⟨by decide, by decide, rfl, by decide,
   hitTest_flip true (925, 25)
     (createGrid (fun _ f => f) [some (fun _ _ => 0), none] 1 2 1920 1080).2
     [initWorker "u" "a", initWorker "v" "b"] 0 1 ((0, 0), (960, 1080))
     (initWorker "u" "a") (by decide) (by decide) rfl (by decide)⟩

/-- Claim C2 (counterexample): on a 120×120 canvas with nine streams
(3×3 grid, 40×40 cells) the control rectangles of horizontally adjacent
tiles overlap; the click (25, 20) lies strictly inside tile 0's control
rectangle, yet stream 1's Audio State flips as well, because `on_mouse`
has no `break` and the overlapping rectangle of tile 1 also contains the
point. -/
theorem hitTest_no_other_cex :
    (nineGrid[0]? = some (some ((0, 0), (40, 40)))) ∧
    strictInCtrl ((0, 0), (40, 40)) (25, 20) ∧
    (((dispatchClick true (25, 20) nineGrid nineWorkers)[1]?).map Worker.audio_enabled =
      some true) ∧
    ((nineWorkers[1]?).map Worker.audio_enabled = some false) :=
  ⟨by decide, by decide, by decide, by decide⟩

theorem positionsFrom_length (cols cw ch : Nat) :
    ∀ (fs : List (Option Frame)) (i0 : Nat),
    (positionsFrom cols cw ch i0 fs).length = fs.length := by
  intro fs
  induction fs with
  | nil => intro i0; rfl
  | cons f? rest ih =>
    intro i0
    simp only [positionsFrom, List.length_cons, ih (i0 + 1)]

theorem positionsFrom_getElem? (cols cw ch : Nat) :
    ∀ (fs : List (Option Frame)) (i0 k : Nat),
    (positionsFrom cols cw ch i0 fs)[k]? =
      (fs[k]?).map (fun f? => f?.map (fun _ => tileRect cols cw ch (i0 + k))) := by
  intro fs
  induction fs with
  | nil => intro i0 k; simp [positionsFrom]
  | cons f? rest ih =>
    intro i0 k
    cases k with
    | zero => cases f? <;> simp [positionsFrom]
    | succ n =>
      simp only [positionsFrom, List.getElem?_cons_succ]
      rw [ih (i0 + 1) n, show (i0 + 1) + n = i0 + (n + 1) from by omega]

theorem ctrlRect_nested (cols cw ch i : Nat) (hcw : 60 ≤ cw) (hch : 40 ≤ ch) :
    nestedIn (ctrlRect (tileRect cols cw ch i)) (tileRect cols cw ch i) := by
  simp only [nestedIn, ctrlRect, tileRect]
  refine ⟨?_, ?_, ?_, ?_⟩ <;> omega

/-- Claim C4 (amended): for valid grid dimensions, `create_grid` returns
one geometry entry per input index; the entry is absent exactly when the
frame is absent, and otherwise is the tile rectangle with top-left
`((i % cols) * cell_w, (i // cols) * cell_h)` and size `cell_w × cell_h`
(`cell_w = w // cols`, `cell_h = h // rows`).  The control rectangle the
dispatcher derives from a tile's corners is nested within the tile
whenever `cell_w ≥ 60` and `cell_h ≥ 40` (for smaller cells it spills
outside — see the counterexample). -/
theorem createGrid_geometry (decorate : Nat → Frame → Frame)
    (frames : List (Option Frame)) (rows cols w h i k : Nat) (f : Frame)
    (hc : 1 ≤ cols) (hr : 1 ≤ rows)
    (hf : frames[i]? = some (some f))
    (hnest : 60 ≤ w / cols ∧ 40 ≤ h / rows) :
    ((createGrid decorate frames rows cols w h).2.length = frames.length) ∧
    ((createGrid decorate frames rows cols w h).2[i]? =
      some (some (tileRect cols (w / cols) (h / rows) i))) ∧
    ((createGrid decorate frames rows cols w h).2[k]? = some none ↔
      frames[k]? = some none) ∧
    nestedIn (ctrlRect (tileRect cols (w / cols) (h / rows) i))
      (tileRect cols (w / cols) (h / rows) i) := by
  have hpos : (createGrid decorate frames rows cols w h).2 =
      positionsFrom cols (w / cols) (h / rows) 0 frames := rfl
  refine ⟨?_, ?_, ?_, ctrlRect_nested cols (w / cols) (h / rows) i hnest.1 hnest.2⟩
  · rw [hpos, positionsFrom_length]
  · rw [hpos, positionsFrom_getElem?, hf]
    simp
  · rw [hpos, positionsFrom_getElem?]
    cases hk : frames[k]? with
    | none => simp
    | some f? => cases f? <;> simp

/-- Witness for `createGrid_geometry`: two streams on a 1×2 grid over the
default 1920×1080 canvas, stream 0 present, stream 1 absent. -/
theorem createGrid_geometry_witness :
    (1 ≤ 2 ∧ 1 ≤ 1 ∧
      ([some (fun _ _ => 0), none] : List (Option Frame))[0]? =
        some (some (fun _ _ => 0)) ∧
      60 ≤ 1920 / 2 ∧ 40 ≤ 1080 / 1) ∧
    (((createGrid (fun _ f => f) [some (fun _ _ => 0), none] 1 2 1920 1080).2.length =
        ([some (fun _ _ => 0), none] : List (Option Frame)).length) ∧
     ((createGrid (fun _ f => f) [some (fun _ _ => 0), none] 1 2 1920 1080).2[0]? =
        some (some (tileRect 2 (1920 / 2) (1080 / 1) 0))) ∧
     ((createGrid (fun _ f => f) [some (fun _ _ => 0), none] 1 2 1920 1080).2[1]? =
        some none ↔
      ([some (fun _ _ => 0), none] : List (Option Frame))[1]? = some none) ∧
     nestedIn (ctrlRect (tileRect 2 (1920 / 2) (1080 / 1) 0))
       (tileRect 2 (1920 / 2) (1080 / 1) 0)) :=
  ⟨⟨by decide, by decide, rfl, by decide, by decide⟩,
   createGrid_geometry (fun _ f => f) [some (fun _ _ => 0), none] 1 2 1920 1080 0 1
     (fun _ _ => 0) (by decide) (by decide) rfl ⟨by decide, by decide⟩⟩

/-- Claim C4 (counterexample): with a 50×30 window and one stream
(`cell_w = 50 < 60`, `cell_h = 30 < 40`, reachable via
`--window-size 50x30`), the control rectangle derived from the produced
tile rectangle `((0,0),(50,30))` is `((-10,10),(40,40))`, which is NOT
nested within the tile. -/
theorem createGrid_nested_cex :
    (oneTile[0]? = some (some ((0, 0), (50, 30)))) ∧
    ¬ nestedIn (ctrlRect ((0, 0), (50, 30))) ((0, 0), (50, 30)) :=
  ⟨by decide, by decide⟩

theorem inTileP_unique (cols cw ch i j px py : Nat)
    (hi : inTileP cols cw ch i px py) (hj : inTileP cols cw ch j px py) : i = j := by
  obtain ⟨hi1, hi2, hi3, hi4⟩ := hi
  obtain ⟨hj1, hj2, hj3, hj4⟩ := hj
  have hxi : px / cw = i % cols :=
    Nat.div_eq_of_lt_le hi1 (by rw [Nat.succ_mul]; omega)
  have hxj : px / cw = j % cols :=
    Nat.div_eq_of_lt_le hj1 (by rw [Nat.succ_mul]; omega)
  have hyi : py / ch = i / cols :=
    Nat.div_eq_of_lt_le hi3 (by rw [Nat.succ_mul]; omega)
  have hyj : py / ch = j / cols :=
    Nat.div_eq_of_lt_le hj3 (by rw [Nat.succ_mul]; omega)
  calc i = cols * (i / cols) + i % cols := (Nat.div_add_mod i cols).symm
    _ = cols * (j / cols) + j % cols := by rw [← hxi, ← hyi, hxj, hyj]
    _ = j := Nat.div_add_mod j cols

theorem gridPixelAux_no_write (decorate : Nat → Frame → Frame) (cols cw ch px py : Nat) :
    ∀ (fs : List (Option Frame)) (i0 acc : Nat),
    (∀ k (f : Frame), fs[k]? = some (some f) → ¬ inTileP cols cw ch (i0 + k) px py) →
    gridPixelAux decorate cols cw ch px py fs i0 acc = acc := by
  intro fs
  induction fs with
  | nil => intro i0 acc _; rfl
  | cons f? rest ih =>
    intro i0 acc h
    have hshift : ∀ k (f : Frame), rest[k]? = some (some f) →
        ¬ inTileP cols cw ch ((i0 + 1) + k) px py := by
      intro k f hk
      rw [show (i0 + 1) + k = i0 + (k + 1) from by omega]
      exact h (k + 1) f (by simpa using hk)
    cases f? with
    | none =>
      simp only [gridPixelAux]
      exact ih (i0 + 1) acc hshift
    | some f =>
      have hnot : ¬ inTileP cols cw ch i0 px py := by
        have := h 0 f (by simp)
        simpa using this
      simp only [gridPixelAux, if_neg hnot]
      exact ih (i0 + 1) acc hshift

/-- Claim C5: the composed image is a fresh zero-initialised buffer each
invocation (the embedding rebuilds it from `np.zeros` with no reference
to prior state), and every pixel inside the cell of an absent frame is
zero: no present tile overlaps it, so nothing writes there
(`frames.length ≤ rows * cols` keeps every write inside the canvas, as in
`main` where `rows * cols ≥ len(streams)`). -/
theorem createGrid_blank_cells (decorate : Nat → Frame → Frame)
    (frames : List (Option Frame)) (rows cols w h i px py : Nat)
    (hc : 1 ≤ cols) (hr : 1 ≤ rows) (hfit : frames.length ≤ rows * cols)
    (habs : frames[i]? = some none)
    (hin : inTileP cols (w / cols) (h / rows) i px py) :
    (createGrid decorate frames rows cols w h).1 px py = 0 := by
  show gridPixelAux decorate cols (w / cols) (h / rows) px py frames 0 0 = 0
  apply gridPixelAux_no_write
  intro k f hk hkin
  rw [Nat.zero_add] at hkin
  have hik : k = i := inTileP_unique cols (w / cols) (h / rows) k i px py hkin hin
  rw [hik, habs] at hk
  simp at hk

/-- Witness for `createGrid_blank_cells`: two streams on a 1×2 grid over
a 100×50 canvas, stream 1 absent; the pixel (60, 10) lies inside tile 1
and is zero. -/
theorem createGrid_blank_cells_witness :
    (1 ≤ 2 ∧ 1 ≤ 1 ∧
      ([some (fun _ _ => 0), none] : List (Option Frame)).length ≤ 1 * 2 ∧
      ([some (fun _ _ => 0), none] : List (Option Frame))[1]? = some none ∧
      inTileP 2 (100 / 2) (50 / 1) 1 60 10) ∧
    (createGrid (fun _ f => f) [some (fun _ _ => 0), none] 1 2 100 50).1 60 10 = 0 :=
  ⟨⟨by decide, by decide, by decide, rfl, by decide⟩,
   createGrid_blank_cells (fun _ f => f) [some (fun _ _ => 0), none] 1 2 100 50 1 60 10
     (by decide) (by decide) (by decide) rfl (by decide)⟩
